import Mathlib

/-!
Verification of the version-aware module-selection engine of the asterisk
docker build repository.

The definitions below are a shallow embedding of `lib/menuselect.py` and
`lib/template_generator.py`.  Version strings are embedded as `List Char`
(the `.data` of a `String`); module names are embedded as `String`.
-/

namespace Asterisk

/-- Feature flags consulted by `MenuSelectGenerator.generate_config`.  The
Python code receives a `Dict[str, bool]` and reads exactly the six keys
below via `features.get(name, True)` (absent keys default to `True`,
unrecognized keys are never read), so a total assignment of the six
booleans models every possible feature-flag mapping. -/
structure Features where
  postgresql : Bool
  odbc : Bool
  ari : Bool
  websocket : Bool
  srtp : Bool
  hep : Bool
deriving DecidableEq, Repr

/-- The all-default feature mapping (every flag defaults to `True`). -/
def defaultFeatures : Features :=
  ⟨true, true, true, true, true, true⟩

/-- `MenuSelectConfig` dataclass: enable list, disable list, disabled
categories. -/
structure MenuSelectConfig where
  enable : List String
  disable : List String
  disable_categories : List String
deriving DecidableEq, Repr

/-- `CHANNEL_MODULES["modern"]`. -/
def CHANNEL_MODULES_modern : List String :=
  ["chan_pjsip", "chan_iax2", "chan_local", "chan_bridge_media", "chan_websocket"]

/-- `CHANNEL_MODULES["legacy"]`. -/
def CHANNEL_MODULES_legacy : List String :=
  ["chan_sip", "chan_iax2", "chan_local", "chan_zap"]

/-- `CHANNEL_MODULES["optional"]`. -/
def CHANNEL_MODULES_optional : List String :=
  ["chan_dahdi", "chan_audiosocket", "chan_console"]

/-- `APPLICATION_MODULES["core"]`. -/
def APPLICATION_MODULES_core : List String :=
  ["app_dial", "app_playback", "app_record", "app_echo", "app_hangup",
   "app_noop", "app_verbose", "app_waitexten"]

/-- `APPLICATION_MODULES["voicemail"]`. -/
def APPLICATION_MODULES_voicemail : List String :=
  ["app_voicemail", "app_voicemailmain"]

/-- `APPLICATION_MODULES["conferencing"]`. -/
def APPLICATION_MODULES_conferencing : List String :=
  ["app_confbridge", "app_meetme"]

/-- `APPLICATION_MODULES["call_features"]`. -/
def APPLICATION_MODULES_call_features : List String :=
  ["app_queue", "app_directory", "app_followme", "app_forkcdr",
   "app_mixmonitor", "app_monitor"]

/-- `APPLICATION_MODULES["control"]`. -/
def APPLICATION_MODULES_control : List String :=
  ["app_if", "app_while", "app_goto", "app_gosub", "app_return", "app_stack"]

/-- `APPLICATION_MODULES["integration"]`. -/
def APPLICATION_MODULES_integration : List String :=
  ["app_system", "app_exec", "app_audiosocket"]

/-- `RESOURCE_MODULES["core"]`. -/
def RESOURCE_MODULES_core : List String :=
  ["res_timing_timerfd", "res_crypto", "res_format_attr", "res_rtp_asterisk",
   "res_musiconhold"]

/-- `RESOURCE_MODULES["pjsip"]`. -/
def RESOURCE_MODULES_pjsip : List String :=
  ["res_pjsip", "res_pjsip_session", "res_pjsip_registrar",
   "res_pjsip_outbound_registration", "res_pjsip_endpoint_identifier_user",
   "res_pjsip_endpoint_identifier_ip", "res_pjsip_authenticator_digest",
   "res_pjsip_caller_id", "res_pjsip_transport_websocket"]

/-- `RESOURCE_MODULES["database"]`. -/
def RESOURCE_MODULES_database : List String :=
  ["res_config_pgsql", "res_config_odbc", "res_odbc", "res_config_curl"]

/-- `RESOURCE_MODULES["cdr_cel"]`. -/
def RESOURCE_MODULES_cdr_cel : List String :=
  ["res_cdr", "res_cel"]

/-- `RESOURCE_MODULES["monitoring"]`. -/
def RESOURCE_MODULES_monitoring : List String :=
  ["res_hep", "res_hep_pjsip", "res_hep_rtcp", "res_statsd", "res_prometheus"]

/-- `RESOURCE_MODULES["ari"]`. -/
def RESOURCE_MODULES_ari : List String :=
  ["res_ari", "res_ari_applications", "res_ari_asterisk", "res_ari_bridges",
   "res_ari_channels", "res_ari_device_states", "res_ari_endpoints",
   "res_ari_events", "res_ari_mailboxes", "res_ari_model",
   "res_ari_playbacks", "res_ari_recordings", "res_ari_sounds"]

/-- `RESOURCE_MODULES["websocket"]`. -/
def RESOURCE_MODULES_websocket : List String :=
  ["res_http_websocket", "res_websocket_client"]

/-- `RESOURCE_MODULES["security"]`. -/
def RESOURCE_MODULES_security : List String :=
  ["res_srtp", "res_stun_monitor"]

/-- `CDR_MODULES["core"]`. -/
def CDR_MODULES_core : List String := ["cdr_csv"]

/-- `CDR_MODULES["database"]`. -/
def CDR_MODULES_database : List String := ["cdr_odbc", "cdr_pgsql", "cdr_mysql"]

/-- `CDR_MODULES["syslog"]`. -/
def CDR_MODULES_syslog : List String := ["cdr_syslog"]

/-- `CDR_MODULES["radius"]`. -/
def CDR_MODULES_radius : List String := ["cdr_radius"]

/-- `CEL_MODULES["core"]`. -/
def CEL_MODULES_core : List String := ["cel_custom"]

/-- `CEL_MODULES["database"]`. -/
def CEL_MODULES_database : List String := ["cel_odbc", "cel_pgsql", "cel_mysql"]

/-- `EXCLUDE_MODULES`: modules disabled by default. -/
def EXCLUDE_MODULES : List String :=
  ["chan_dahdi", "chan_misdn", "app_festival", "app_flash",
   "res_pjsip_sdp_rtp", "codec_dahdi"]

/-- `DISABLE_CATEGORIES`. -/
def DISABLE_CATEGORIES : List String :=
  ["MENUSELECT_CORE_SOUNDS", "MENUSELECT_MOH", "MENUSELECT_EXTRA_SOUNDS"]

/-- `int(...)` on a non-empty digit string. -/
def digitsToNat (l : List Char) : Nat :=
  l.foldl (fun n c => n * 10 + (c.toNat - '0'.toNat)) 0

/-- Python's substring test `sub in s` on character lists. -/
def hasSub (p : List Char) : List Char → Bool
  | [] => p.isEmpty
  | c :: rest => p.isPrefixOf (c :: rest) || hasSub p rest

/-- `version.split('-cert')[0]`: the part of the string before the first
occurrence of `-cert` (the whole string when `-cert` does not occur). -/
def beforeCert : List Char → List Char
  | [] => []
  | c :: rest =>
    if "-cert".data.isPrefixOf (c :: rest) then []
    else c :: beforeCert rest

/-- Parsed version record produced by `MenuSelectGenerator._parse_version`:
major, minor, patch (0 when absent) and the optional pre-release tag
captured by group 4 of the regex. -/
structure PyVersion where
  major : Nat
  minor : Nat
  patch : Nat
  suffix : Option String
deriving DecidableEq, Repr

/-- The regex prefix match
`re.match(r'^(\d+)\.(\d+)(?:\.(\d+))?(?:-(alpha|beta|rc)\d*)?', base)`:
greedy digit runs, an optional `.PATCH` group that is skipped when the dot
is not followed by a digit, and an optional pre-release tag.  `re.match`
anchors at the start only, so trailing characters are ignored. -/
def matchVersion (l : List Char) : Option PyVersion :=
  if l.takeWhile Char.isDigit = [] then none
  else
    match l.dropWhile Char.isDigit with
    | '.' :: r2 =>
      if r2.takeWhile Char.isDigit = [] then none
      else
        let r3 := r2.dropWhile Char.isDigit
        let pr : Option (List Char) × List Char :=
          match r3 with
          | '.' :: r3' =>
            if r3'.takeWhile Char.isDigit = [] then (none, r3)
            else (some (r3'.takeWhile Char.isDigit), r3'.dropWhile Char.isDigit)
          | _ => (none, r3)
        let suffix : Option String :=
          match pr.2 with
          | '-' :: r4 =>
            if "alpha".data.isPrefixOf r4 then some "alpha"
            else if "beta".data.isPrefixOf r4 then some "beta"
            else if "rc".data.isPrefixOf r4 then some "rc"
            else none
          | _ => none
        some ⟨digitsToNat (l.takeWhile Char.isDigit),
              digitsToNat (r2.takeWhile Char.isDigit),
              (pr.1.map digitsToNat).getD 0, suffix⟩
    | _ => none

/-- `MenuSelectGenerator._parse_version`: `git` versions become
`(99, 99, 99, None)`, otherwise the optional `-cert` marker is stripped and
the version regex is applied; `none` models the raised `ValueError`. -/
def parse_version (s : List Char) : Option PyVersion :=
  if s = "git".data ∨ "git-".data.isPrefixOf s = true then
    some ⟨99, 99, 99, none⟩
  else
    matchVersion (beforeCert s)

/-- `MenuSelectGenerator._is_legacy_version`. -/
def is_legacy_version (major minor : Nat) : Bool :=
  decide (major = 1 ∧ 2 ≤ minor ∧ minor ≤ 8)

/-- `MenuSelectGenerator._version_supports_pjsip`. -/
def version_supports_pjsip (major : Nat) : Bool :=
  decide (12 ≤ major)

/-- `MenuSelectGenerator._version_supports_websocket`. -/
def version_supports_websocket (major : Nat) : Bool :=
  decide (23 ≤ major)

/-- `MenuSelectGenerator._version_supports_ari`. -/
def version_supports_ari (major : Nat) : Bool :=
  decide (12 ≤ major)

/-- Python substring containment on module names (`"pgsql" in m`). -/
def pyIn (sub m : String) : Bool :=
  hasSub sub.data m.data

/-- Lexicographic less-or-equal on character lists, comparing code points,
as Python string comparison does. -/
def lexLe : List Char → List Char → Bool
  | [], _ => true
  | _ :: _, [] => false
  | a :: as, b :: bs =>
    if a.toNat < b.toNat then true
    else if b.toNat < a.toNat then false
    else lexLe as bs

/-- Lexicographic less-or-equal on strings (Python `sorted` order). -/
def strLe (a b : String) : Prop :=
  lexLe a.data b.data = true

instance : DecidableRel strLe :=
  fun _ _ => inferInstanceAs (Decidable (_ = true))

theorem lexLe_total : ∀ x y : List Char, lexLe x y = true ∨ lexLe y x = true
  | [], _ => Or.inl rfl
  | _ :: _, [] => Or.inr rfl
  | a :: as, b :: bs => by
    simp only [lexLe]
    rcases Nat.lt_trichotomy a.toNat b.toNat with h | h | h
    · left
      simp [h]
    · have h1 : ¬ a.toNat < b.toNat := by omega
      have h2 : ¬ b.toNat < a.toNat := by omega
      rcases lexLe_total as bs with ih | ih <;> simp [h1, h2, ih]
    · right
      simp [h]

theorem lexLe_trans :
    ∀ x y z : List Char, lexLe x y = true → lexLe y z = true → lexLe x z = true
  | [], _, _, _, _ => rfl
  | _ :: _, [], _, h1, _ => by simp [lexLe] at h1
  | _ :: _, _ :: _, [], _, h2 => by simp [lexLe] at h2
  | a :: as, b :: bs, c :: cs, h1, h2 => by
    simp only [lexLe] at h1 h2 ⊢
    by_cases hab : a.toNat < b.toNat <;> by_cases hba : b.toNat < a.toNat <;>
      by_cases hbc : b.toNat < c.toNat <;> by_cases hcb : c.toNat < b.toNat <;>
        by_cases hac : a.toNat < c.toNat <;> by_cases hca : c.toNat < a.toNat <;>
          simp only [hab, hba, hbc, hcb, hac, hca, if_true, if_false,
            ite_true, ite_false, if_pos, if_neg, not_false_iff] at h1 h2 ⊢ <;>
            first
            | rfl
            | omega
            | exact h1
            | exact h2
            | exact absurd h1 (by decide)
            | exact absurd h2 (by decide)
            | exact lexLe_trans as bs cs h1 h2

instance : IsTotal String strLe :=
  ⟨fun a b => lexLe_total a.data b.data⟩

instance : IsTrans String strLe :=
  ⟨fun a b c => lexLe_trans a.data b.data c.data⟩

/-- `sorted(list(set(l)))`: the lexicographically sorted list of the
distinct elements of `l`. -/
def sortedDedup (l : List String) : List String :=
  List.insertionSort strLe l.dedup

/-- The `enable_modules` list built by `generate_config` before the final
`sorted(list(set(...)))`, as the concatenation of the extends performed by
the Python code, in source order. -/
def enable_raw (major minor : Nat) (features : Features) : List String :=
  (let channels :=
     if is_legacy_version major minor = true then CHANNEL_MODULES_legacy
     else CHANNEL_MODULES_modern
   if version_supports_websocket major = true then channels
   else channels.filter (fun m => m != "chan_websocket"))
  ++ APPLICATION_MODULES_core
  ++ APPLICATION_MODULES_voicemail
  ++ APPLICATION_MODULES_call_features
  ++ APPLICATION_MODULES_control
  ++ (if is_legacy_version major minor = false ∧ 10 ≤ major then
        APPLICATION_MODULES_conferencing
      else ["app_meetme"])
  ++ RESOURCE_MODULES_core
  ++ RESOURCE_MODULES_cdr_cel
  ++ (if version_supports_pjsip major = true ∧ is_legacy_version major minor = false then
        RESOURCE_MODULES_pjsip
      else [])
  ++ (if features.postgresql = true then
        RESOURCE_MODULES_database.filter (fun m => pyIn "pgsql" m)
        ++ CDR_MODULES_database.filter (fun m => pyIn "pgsql" m)
        ++ CEL_MODULES_database.filter (fun m => pyIn "pgsql" m)
      else [])
  ++ (if features.odbc = true then
        RESOURCE_MODULES_database.filter (fun m => pyIn "odbc" m)
        ++ CDR_MODULES_database.filter (fun m => pyIn "odbc" m)
        ++ CEL_MODULES_database.filter (fun m => pyIn "odbc" m)
      else [])
  ++ CDR_MODULES_core
  ++ (if version_supports_ari major = true ∧ features.ari = true then
        RESOURCE_MODULES_ari
      else [])
  ++ (if version_supports_websocket major = true then
        RESOURCE_MODULES_websocket ++ RESOURCE_MODULES_ari
      else if features.websocket = true ∧ is_legacy_version major minor = false then
        RESOURCE_MODULES_websocket
      else [])
  ++ (if features.srtp = true ∧ is_legacy_version major minor = false then
        RESOURCE_MODULES_security
      else [])
  ++ (if features.hep = true ∧ is_legacy_version major minor = false then
        RESOURCE_MODULES_monitoring
      else [])

/-- `MenuSelectGenerator.generate_config` for a parsed version: the enable
list deduplicated and sorted, the disable list (the default exclusions)
deduplicated and sorted, and the fixed disabled categories. -/
def generate_config (major minor : Nat) (features : Features) : MenuSelectConfig :=
  { enable := sortedDedup (enable_raw major minor features)
    disable := sortedDedup EXCLUDE_MODULES
    disable_categories := DISABLE_CATEGORIES }

/-- `MenuSelectGenerator.generate_menuselect_commands`. -/
def generate_menuselect_commands (config : MenuSelectConfig) : List String :=
  ["menuselect/menuselect --disable BUILD_NATIVE menuselect.makeopts",
   "menuselect/menuselect --enable BETTER_BACKTRACES menuselect.makeopts"]
  ++ config.disable_categories.map
      (fun category => "menuselect/menuselect --disable-category " ++ category ++ " menuselect.makeopts")
  ++ config.enable.map
      (fun m => "menuselect/menuselect --enable " ++ m ++ " menuselect.makeopts")
  ++ config.disable.map
      (fun m => "menuselect/menuselect --disable " ++ m ++ " menuselect.makeopts")

/-- Construction of a `MenuSelectGenerator` from a version string followed
by `generate_config`: `none` when `_parse_version` raises. -/
def menu_config_of_string (s : List Char) (features : Features) : Option MenuSelectConfig :=
  (parse_version s).map (fun v => generate_config v.major v.minor features)

/-- `DRYTemplateGenerator._determine_distribution`: maps a version string
to a Debian distribution codename by `startswith` tests. -/
def determine_distribution (version : List Char) : List Char :=
  if "1.".data.isPrefixOf version = true ∨ "10.".data.isPrefixOf version = true ∨
     "11.".data.isPrefixOf version = true ∨ "12.".data.isPrefixOf version = true then
    "jessie".data
  else if "13.".data.isPrefixOf version = true ∨ "14.".data.isPrefixOf version = true ∨
          "15.".data.isPrefixOf version = true then
    "buster".data
  else if "16.".data.isPrefixOf version = true ∨ "17.".data.isPrefixOf version = true then
    "bookworm".data
  else
    "trixie".data

/-- Python `s.split('.')` on character lists: split at every dot. -/
def splitDots : List Char → List (List Char)
  | [] => [[]]
  | c :: rest =>
    match splitDots rest with
    | [] => [[]]
    | h :: t => if c = '.' then [] :: h :: t else (c :: h) :: t

/-- Python `'.'.join(parts)` on character lists. -/
def joinDots (parts : List (List Char)) : List Char :=
  List.intercalate ['.'] parts

/-- `'.'.join(asterisk_version.split('.')[:2])`: the `major.minor` key used
by `_get_addons_version`. -/
def major_minor_key (asterisk_version : List Char) : List Char :=
  joinDots ((splitDots asterisk_version).take 2)

/-- The `addons_mapping` dictionary of `_get_addons_version`. -/
def addons_mapping : List (List Char × List Char) :=
  [("1.2".data, "1.2.9".data), ("1.4".data, "1.4.9".data), ("1.6".data, "1.6.2.4".data)]

/-- `DRYTemplateGenerator._get_addons_version`: look the `major.minor` key
up in `addons_mapping`, falling back to the product version itself. -/
def get_addons_version (asterisk_version : List Char) : List Char :=
  ((addons_mapping.lookup (major_minor_key asterisk_version)).getD asterisk_version)

/-- The version parse inside `DRYTemplateGenerator._apply_version_overrides`:
`git` versions count as major 99, otherwise `re.match(r'^(\d+)\.(\d+)', ...)`
on the part before `-cert`; `none` means the overrides are skipped. -/
def tg_parse_major (version : List Char) : Option Nat :=
  if version = "git".data ∨ "git-".data.isPrefixOf version = true then some 99
  else
    let base := beforeCert version
    if base.takeWhile Char.isDigit = [] then none
    else
      match base.dropWhile Char.isDigit with
      | '.' :: r2 =>
        if r2.takeWhile Char.isDigit = [] then none
        else some (digitsToNat (base.takeWhile Char.isDigit))
      | _ => none

/-- The slice of the configuration dictionary read and written by
`_apply_version_overrides`: `config["asterisk"]["menuselect"]["channels"]`,
`config["asterisk"]["menuselect"]["exclude"]` and
`config["features"]["websockets"]`; `none` models an absent key. -/
structure OverrideConfig where
  channels : Option (List String)
  exclude : Option (List String)
  websockets : Option Bool
deriving DecidableEq, Repr

/-- `DRYTemplateGenerator._apply_version_overrides`: no change when the
version cannot be parsed or `major < 12`; otherwise the menuselect lists are
materialised, `chan_sip` is appended to `exclude` for `major >= 21`, and
`chan_websocket` is appended to `channels` (with the `websockets` feature
forced `True`) for `major >= 23`. -/
def apply_version_overrides (config : OverrideConfig) (version : List Char) :
    OverrideConfig :=
  match tg_parse_major version with
  | none => config
  | some major =>
    if major < 12 then config
    else
      let channels := config.channels.getD []
      let exclude := config.exclude.getD []
      let exclude :=
        if 21 ≤ major then
          if "chan_sip" ∈ exclude then exclude else exclude ++ ["chan_sip"]
        else exclude
      let channels :=
        if 23 ≤ major then
          if "chan_websocket" ∈ channels then channels
          else channels ++ ["chan_websocket"]
        else channels
      let websockets := if 23 ≤ major then some true else config.websockets
      { channels := some channels, exclude := some exclude, websockets := websockets }

/-- Helper for the spec grammar: consume a non-empty run of digits. -/
def dropDigits1 (l : List Char) : Option (List Char) :=
  if l.takeWhile Char.isDigit = [] then none else some (l.dropWhile Char.isDigit)

/-- Helper for the spec grammar: consume a literal tag. -/
def chompTag (tag l : List Char) : Option (List Char) :=
  if tag.isPrefixOf l then some (l.drop tag.length) else none

/-- Modelled from the spec: the optional trailing `-certN` of the accepted
version grammar, followed by the end of the string. -/
def specCert (l : List Char) : Bool :=
  decide (l = []) ||
    (match chompTag "-cert".data l with
     | some r =>
       match dropDigits1 r with
       | some r2 => decide (r2 = [])
       | none => false
     | none => false)

/-- Modelled from the spec: the optional `-(alpha|beta|rc)N` of the
accepted version grammar, followed by the optional `-certN` part. -/
def specSuffixCert (l : List Char) : Bool :=
  specCert l ||
    (match
       (match chompTag "-alpha".data l with
        | some r => some r
        | none =>
          match chompTag "-beta".data l with
          | some r => some r
          | none => chompTag "-rc".data l) with
     | some r =>
       match dropDigits1 r with
       | some r2 => specCert r2
       | none => false
     | none => false)

/-- Modelled from the spec: what may follow `MAJOR.MINOR` in the accepted
version grammar: an optional `.PATCH`, then the optional suffixes. -/
def specAfterMinor (l : List Char) : Bool :=
  specSuffixCert l ||
    (match l with
     | '.' :: r =>
       match dropDigits1 r with
       | some r2 => specSuffixCert r2
       | none => false
     | _ => false)

/-- Modelled from the spec (§6, external interfaces): the accepted version
grammar `MAJOR.MINOR[.PATCH][-(alpha|beta|rc)N][-certN]`, digits only for
numeric components, or the development-tip token `git` / `git-<revision>`.
The whole string must match. -/
def specVersionGrammar (s : List Char) : Bool :=
  decide (s = "git".data) || "git-".data.isPrefixOf s ||
    (match dropDigits1 s with
     | none => false
     | some r1 =>
       match r1 with
       | '.' :: r2 =>
         match dropDigits1 r2 with
         | none => false
         | some r3 => specAfterMinor r3
       | _ => false)

/-- The failure condition of `_parse_version` for non-`git` strings: the
part before `-cert` must offer a `MAJOR.MINOR` digit prefix for the regex
to match. -/
def hasMajorMinorPrefix (l : List Char) : Bool :=
  if l.takeWhile Char.isDigit = [] then false
  else
    match l.dropWhile Char.isDigit with
    | '.' :: r2 => !(r2.takeWhile Char.isDigit).isEmpty
    | _ => false

theorem mem_sortedDedup {m : String} {l : List String} :
    m ∈ sortedDedup l ↔ m ∈ l := by
  unfold sortedDedup
  rw [List.mem_insertionSort, List.mem_dedup]

theorem sortedDedup_nodup (l : List String) : (sortedDedup l).Nodup :=
  (List.perm_insertionSort strLe l.dedup).nodup_iff.mpr l.nodup_dedup

theorem sortedDedup_sorted (l : List String) :
    List.Sorted strLe (sortedDedup l) :=
  List.sorted_insertionSort strLe l.dedup

theorem ite_subset {c : Prop} [Decidable c] {A B C : List String}
    (hA : A ⊆ C) (hB : B ⊆ C) : (if c then A else B) ⊆ C := by
  split <;> assumption

/-- Every module list that any branch of `generate_config` can ever append
to `enable_modules`. -/
def ENABLE_UNIVERSE : List String :=
  CHANNEL_MODULES_legacy ++ CHANNEL_MODULES_modern ++ APPLICATION_MODULES_core ++
  APPLICATION_MODULES_voicemail ++ APPLICATION_MODULES_call_features ++
  APPLICATION_MODULES_control ++ APPLICATION_MODULES_conferencing ++
  RESOURCE_MODULES_core ++ RESOURCE_MODULES_cdr_cel ++ RESOURCE_MODULES_pjsip ++
  RESOURCE_MODULES_database ++ CDR_MODULES_database ++ CEL_MODULES_database ++
  CDR_MODULES_core ++ RESOURCE_MODULES_ari ++ RESOURCE_MODULES_websocket ++
  RESOURCE_MODULES_security ++ RESOURCE_MODULES_monitoring

theorem enable_raw_subset (major minor : Nat) (f : Features) :
    enable_raw major minor f ⊆ ENABLE_UNIVERSE := by
  simp only [enable_raw]
  repeat' refine List.append_subset.mpr ⟨?_, ?_⟩
  all_goals repeat' first
    | apply ite_subset
    | refine List.append_subset.mpr ⟨?_, ?_⟩
  all_goals first
    | decide
    | exact (List.filter_subset' _).trans (by decide)
    | exact (List.filter_subset' _).trans (ite_subset (by decide) (by decide))

/-- `ENABLE_UNIVERSE` with the legacy channel list removed: the modules
reachable when the version is not legacy. -/
def ENABLE_NONLEGACY_UNIVERSE : List String :=
  CHANNEL_MODULES_modern ++ APPLICATION_MODULES_core ++
  APPLICATION_MODULES_voicemail ++ APPLICATION_MODULES_call_features ++
  APPLICATION_MODULES_control ++ APPLICATION_MODULES_conferencing ++
  RESOURCE_MODULES_core ++ RESOURCE_MODULES_cdr_cel ++ RESOURCE_MODULES_pjsip ++
  RESOURCE_MODULES_database ++ CDR_MODULES_database ++ CEL_MODULES_database ++
  CDR_MODULES_core ++ RESOURCE_MODULES_ari ++ RESOURCE_MODULES_websocket ++
  RESOURCE_MODULES_security ++ RESOURCE_MODULES_monitoring

theorem enable_raw_subset_nonlegacy (major minor : Nat) (f : Features)
    (h : is_legacy_version major minor = false) :
    enable_raw major minor f ⊆ ENABLE_NONLEGACY_UNIVERSE := by
  simp [enable_raw, h]
  repeat' first
    | constructor
    | apply ite_subset
    | refine List.append_subset.mpr ⟨?_, ?_⟩
  all_goals first
    | decide
    | exact (List.filter_subset' _).trans (by decide)
    | exact (List.filter_subset' _).trans (ite_subset (by decide) (by decide))

/-- `ENABLE_UNIVERSE` with the conferencing category replaced by the
legacy conferencing fallback: the modules reachable when the ConfBridge
branch is not taken. -/
def ENABLE_NOCONF_UNIVERSE : List String :=
  CHANNEL_MODULES_legacy ++ CHANNEL_MODULES_modern ++ APPLICATION_MODULES_core ++
  APPLICATION_MODULES_voicemail ++ APPLICATION_MODULES_call_features ++
  APPLICATION_MODULES_control ++ ["app_meetme"] ++
  RESOURCE_MODULES_core ++ RESOURCE_MODULES_cdr_cel ++ RESOURCE_MODULES_pjsip ++
  RESOURCE_MODULES_database ++ CDR_MODULES_database ++ CEL_MODULES_database ++
  CDR_MODULES_core ++ RESOURCE_MODULES_ari ++ RESOURCE_MODULES_websocket ++
  RESOURCE_MODULES_security ++ RESOURCE_MODULES_monitoring

theorem enable_raw_subset_noconf (major minor : Nat) (f : Features)
    (h : ¬ (is_legacy_version major minor = false ∧ 10 ≤ major)) :
    enable_raw major minor f ⊆ ENABLE_NOCONF_UNIVERSE := by
  simp only [enable_raw, if_neg h]
  repeat' refine List.append_subset.mpr ⟨?_, ?_⟩
  all_goals repeat' first
    | apply ite_subset
    | refine List.append_subset.mpr ⟨?_, ?_⟩
  all_goals first
    | decide
    | exact (List.filter_subset' _).trans (by decide)
    | exact (List.filter_subset' _).trans (ite_subset (by decide) (by decide))

set_option maxHeartbeats 1000000 in
/-- No default-excluded module occurs in any list `generate_config` can
append to `enable_modules`. -/
theorem exclude_disjoint_universe :
    ∀ x ∈ EXCLUDE_MODULES, x ∉ ENABLE_UNIVERSE := by decide

theorem mem_enable_iff (major minor : Nat) (f : Features) {m : String} :
    m ∈ (generate_config major minor f).enable ↔ m ∈ enable_raw major minor f := by
  simp only [generate_config, mem_sortedDedup]

theorem mem_disable_iff (major minor : Nat) (f : Features) {m : String} :
    m ∈ (generate_config major minor f).disable ↔ m ∈ EXCLUDE_MODULES := by
  simp only [generate_config, mem_sortedDedup]

/-- C1: For every version string accepted by the version parser and every
feature-flag mapping, the module selection returned by
`MenuSelectGenerator.generate_config` has enable and disable sets with
empty intersection: no module appears in both the enable list and the
disable list. -/
theorem enable_disable_disjoint (s : List Char) (f : Features) (v : PyVersion)
    (hparse : parse_version s = some v) :
    ∀ m, m ∈ (generate_config v.major v.minor f).enable →
      m ∉ (generate_config v.major v.minor f).disable := by
  intro m hmem hdis
  have h1 : m ∈ ENABLE_UNIVERSE :=
    enable_raw_subset v.major v.minor f ((mem_enable_iff v.major v.minor f).mp hmem)
  have h2 : m ∈ EXCLUDE_MODULES := (mem_disable_iff v.major v.minor f).mp hdis
  exact exclude_disjoint_universe m h2 h1

/-- C1 witness: instantiation at version `22.6.0` with default flags. -/
theorem enable_disable_disjoint_witness :
    parse_version "22.6.0".data = some ⟨22, 6, 0, none⟩ ∧
      ("chan_pjsip" ∈ (generate_config 22 6 defaultFeatures).enable →
        "chan_pjsip" ∉ (generate_config 22 6 defaultFeatures).disable) :=
  ⟨by decide,
   enable_disable_disjoint "22.6.0".data defaultFeatures ⟨22, 6, 0, none⟩
     (by decide) "chan_pjsip"⟩

/-- C6: For every version and every feature-flag mapping, no module from
the always-excluded catalog `EXCLUDE_MODULES` appears in the enable set
returned by `MenuSelectGenerator.generate_config`: exclusion wins. -/
theorem excluded_never_enabled (s : List Char) (f : Features) (v : PyVersion)
    (hparse : parse_version s = some v) :
    ∀ m, m ∈ EXCLUDE_MODULES → m ∉ (generate_config v.major v.minor f).enable := by
  intro m hex hmem
  have h1 : m ∈ ENABLE_UNIVERSE :=
    enable_raw_subset v.major v.minor f ((mem_enable_iff v.major v.minor f).mp hmem)
  exact exclude_disjoint_universe m hex h1

/-- C6 witness: instantiation at version `1.8.32.3` and `chan_dahdi`. -/
theorem excluded_never_enabled_witness :
    parse_version "1.8.32.3".data = some ⟨1, 8, 32, none⟩ ∧
      "chan_dahdi" ∉ (generate_config 1 8 defaultFeatures).enable :=
  ⟨by decide,
   excluded_never_enabled "1.8.32.3".data defaultFeatures ⟨1, 8, 32, none⟩
     (by decide) "chan_dahdi" (by decide)⟩

/-- C2: For every version with `major >= 23` and every feature-flag
mapping (including ones whose `websocket` and `ari` flags are `false`),
the enable set contains the WebSocket channel module, both WebSocket
transport/resource modules, and every module of the `res_ari` family: the
era >= 23 force-enable overrides the flag values. -/
theorem websocket_ari_forced_v23 (s : List Char) (f : Features) (v : PyVersion)
    (hparse : parse_version s = some v) (h23 : 23 ≤ v.major) :
    ∀ m, m ∈ ("chan_websocket" :: (RESOURCE_MODULES_websocket ++ RESOURCE_MODULES_ari)) →
      m ∈ (generate_config v.major v.minor f).enable := by
  intro m hm
  have hleg : is_legacy_version v.major v.minor = false := by
    simp only [is_legacy_version, decide_eq_false_iff_not]
    omega
  have hws : version_supports_websocket v.major = true := by
    simp only [version_supports_websocket, decide_eq_true_eq]
    omega
  rw [mem_enable_iff]
  simp only [List.mem_cons, List.mem_append] at hm
  simp [enable_raw, hleg, hws]
  rcases hm with rfl | hm₂
  · simp [CHANNEL_MODULES_modern]
  · rcases hm₂ with hw | ha
    · simp [hw]
    · simp [ha]

/-- C2 witness: version `23.0.0` with the `websocket` and `ari` flags
explicitly false still enables `res_ari`. -/
theorem websocket_ari_forced_v23_witness :
    "res_ari" ∈ (generate_config 23 0 ⟨true, true, false, false, true, true⟩).enable :=
  websocket_ari_forced_v23 "23.0.0".data ⟨true, true, false, false, true, true⟩
    ⟨23, 0, 0, none⟩ (by decide) (by decide) "res_ari" (by decide)

/-- C4 counterexample: at version `22.6.0` (non-legacy, major >= 10) the
enable set contains both conferencing applications, so the claim that
modern versions get `app_confbridge` and not `app_meetme` fails. -/
theorem conferencing_both_at_22_6 :
    parse_version "22.6.0".data = some ⟨22, 6, 0, none⟩ ∧
      "app_confbridge" ∈ (generate_config 22 6 defaultFeatures).enable ∧
      "app_meetme" ∈ (generate_config 22 6 defaultFeatures).enable := by
  refine ⟨by decide, ?_, ?_⟩ <;> rw [mem_enable_iff] <;> decide

set_option maxHeartbeats 1000000 in
/-- C4 amended: `app_meetme` is in the enable set for every version; the
non-legacy versions with `major >= 10` additionally get `app_confbridge`
(the code extends with the whole conferencing category, so the two are not
mutually exclusive), and `app_confbridge` is enabled for exactly those
versions. -/
theorem conferencing_modules (s : List Char) (f : Features) (v : PyVersion)
    (hparse : parse_version s = some v) :
    "app_meetme" ∈ (generate_config v.major v.minor f).enable ∧
      ("app_confbridge" ∈ (generate_config v.major v.minor f).enable ↔
        (is_legacy_version v.major v.minor = false ∧ 10 ≤ v.major)) := by
  refine ⟨?_, ?_, ?_⟩
  · rw [mem_enable_iff]
    by_cases hc : (is_legacy_version v.major v.minor = false ∧ 10 ≤ v.major)
    · simp [enable_raw, hc.1, hc.2, APPLICATION_MODULES_conferencing]
    · simp [enable_raw, hc]
  · intro hmem
    by_contra hc
    have h1 := enable_raw_subset_noconf v.major v.minor f hc
      ((mem_enable_iff v.major v.minor f).mp hmem)
    exact absurd h1 (by decide)
  · intro hc
    rw [mem_enable_iff]
    simp [enable_raw, hc.1, hc.2, APPLICATION_MODULES_conferencing]

/-- C4 witness: legacy version `1.8.32.3` gets `app_meetme`. -/
theorem conferencing_modules_witness :
    "app_meetme" ∈ (generate_config 1 8 defaultFeatures).enable :=
  (conferencing_modules "1.8.32.3".data defaultFeatures ⟨1, 8, 32, none⟩ (by decide)).1

/-- When `_parse_version` succeeds, the independent regex of
`_apply_version_overrides` extracts the same major number. -/
theorem tg_parse_major_of_parse_version {s : List Char} {v : PyVersion}
    (h : parse_version s = some v) : tg_parse_major s = some v.major := by
  unfold parse_version at h
  simp only [tg_parse_major]
  by_cases hg : (s = "git".data ∨ "git-".data.isPrefixOf s = true)
  · rw [if_pos hg] at h ⊢
    obtain rfl : (⟨99, 99, 99, none⟩ : PyVersion) = v := by injection h
    rfl
  · rw [if_neg hg] at h ⊢
    unfold matchVersion at h
    by_cases h1 : (beforeCert s).takeWhile Char.isDigit = []
    · rw [if_pos h1] at h
      exact absurd h (by simp)
    · rw [if_neg h1] at h ⊢
      split at h
      next r2 _heq =>
        by_cases h2 : r2.takeWhile Char.isDigit = []
        · rw [if_pos h2] at h
          exact absurd h (by simp)
        · rw [if_neg h2] at h
          rw [if_neg h2]
          obtain rfl :
              (⟨digitsToNat ((beforeCert s).takeWhile Char.isDigit),
                digitsToNat (r2.takeWhile Char.isDigit), _, _⟩ : PyVersion) = v := by
            injection h
          rfl
      next =>
        exact absurd h (by simp)

/-- C3 counterexample: at version `21.0.0` the disable set returned by
`MenuSelectGenerator.generate_config` does not contain `chan_sip` (it is
always the fixed `EXCLUDE_MODULES` list). -/
theorem chan_sip_not_in_disable_at_21 :
    parse_version "21.0.0".data = some ⟨21, 0, 0, none⟩ ∧
      "chan_sip" ∉ (generate_config 21 0 defaultFeatures).disable := by
  refine ⟨by decide, ?_⟩
  rw [mem_disable_iff]
  decide

set_option maxHeartbeats 1000000 in
/-- C3 amended: for every version with `major >= 21`, `chan_sip` is absent
from the enable set of `generate_config`; the explicit exclusion of
`chan_sip` happens in `DRYTemplateGenerator._apply_version_overrides`,
which appends it to the configuration's menuselect `exclude` list.  The
disable set of `generate_config` itself stays the fixed default-exclusion
list, which does not contain `chan_sip`. -/
theorem chan_sip_gone_v21 (s : List Char) (f : Features) (v : PyVersion)
    (cfg : OverrideConfig) (hparse : parse_version s = some v)
    (h21 : 21 ≤ v.major) :
    "chan_sip" ∉ (generate_config v.major v.minor f).enable ∧
      "chan_sip" ∈ ((apply_version_overrides cfg s).exclude.getD []) ∧
      "chan_sip" ∉ (generate_config v.major v.minor f).disable := by
  refine ⟨?_, ?_, ?_⟩
  · intro hmem
    have hleg : is_legacy_version v.major v.minor = false := by
      simp only [is_legacy_version, decide_eq_false_iff_not]
      omega
    have h1 := enable_raw_subset_nonlegacy v.major v.minor f hleg
      ((mem_enable_iff v.major v.minor f).mp hmem)
    exact absurd h1 (by decide)
  · have htg : tg_parse_major s = some v.major := tg_parse_major_of_parse_version hparse
    simp only [apply_version_overrides, htg]
    rw [if_neg (by omega : ¬ v.major < 12)]
    simp only [Option.getD_some, if_pos h21]
    split
    · assumption
    · exact List.mem_append_right _ (by decide)
  · intro hdis
    have h2 : "chan_sip" ∈ EXCLUDE_MODULES := (mem_disable_iff v.major v.minor f).mp hdis
    exact absurd h2 (by decide)

/-- C3 witness: instantiation at version `21.0.0` with an empty override
configuration. -/
theorem chan_sip_gone_v21_witness :
    "chan_sip" ∈ ((apply_version_overrides ⟨none, none, none⟩ "21.0.0".data).exclude.getD []) :=
  (chan_sip_gone_v21 "21.0.0".data defaultFeatures ⟨21, 0, 0, none⟩
    ⟨none, none, none⟩ (by decide) (by decide)).2.1

theorem matchVersion_none_iff (b : List Char) :
    matchVersion b = none ↔ hasMajorMinorPrefix b = false := by
  unfold matchVersion hasMajorMinorPrefix
  by_cases h1 : b.takeWhile Char.isDigit = []
  · simp [h1]
  · simp only [if_neg h1]
    split
    next r2 _heq =>
      by_cases h2 : r2.takeWhile Char.isDigit = []
      · simp [h2]
      · simp [h2]
    next =>
      simp

/-- C5 counterexample: the string `1.2xyz` does not match the accepted
grammar (trailing non-grammar characters), yet `_parse_version` accepts it
as `(1, 2, 0, None)` instead of raising the invalid-format error: the
regex is unanchored at the end. -/
theorem trailing_garbage_accepted :
    specVersionGrammar "1.2xyz".data = false ∧
      parse_version "1.2xyz".data = some ⟨1, 2, 0, none⟩ := by
  constructor <;> decide

/-- C5 amended: `_parse_version` fails exactly when the string is neither
the development-tip token (`git` / `git-...`) nor, after stripping at the
first `-cert`, offers a `MAJOR.MINOR` digits-dot-digits prefix.  Strings
with a valid prefix followed by trailing garbage are accepted rather than
rejected. -/
theorem parse_version_none_iff (s : List Char) :
    parse_version s = none ↔
      (¬ (s = "git".data ∨ "git-".data.isPrefixOf s = true) ∧
        hasMajorMinorPrefix (beforeCert s) = false) := by
  unfold parse_version
  by_cases hg : (s = "git".data ∨ "git-".data.isPrefixOf s = true)
  · rw [if_pos hg]
    constructor
    · intro h
      exact absurd h (by simp)
    · rintro ⟨hnot, -⟩
      exact absurd hg hnot
  · simp only [if_neg hg, hg, not_false_iff, true_and]
    exact matchVersion_none_iff _

theorem isPrefixOf_exists {p l : List Char} (h : p.isPrefixOf l = true) :
    ∃ t, l = p ++ t := by
  induction p generalizing l with
  | nil => exact ⟨l, rfl⟩
  | cons a p' ih =>
    cases l with
    | nil => simp [List.isPrefixOf] at h
    | cons b l' =>
      simp only [List.isPrefixOf, Bool.and_eq_true, beq_iff_eq] at h
      obtain ⟨rfl, h2⟩ := h
      obtain ⟨t, rfl⟩ := ih h2
      exact ⟨t, rfl⟩

theorem beforeCert_eq_self {v : List Char} (h : hasSub "-cert".data v = false) :
    beforeCert v = v := by
  induction v with
  | nil => rfl
  | cons c rest ih =>
    rw [hasSub, Bool.or_eq_false_iff] at h
    unfold beforeCert
    rw [if_neg (by simp [h.1]), ih h.2]

theorem cert_prefix_append {w t : List Char}
    (h : "-cert".data.isPrefixOf (w ++ ("-cert".data ++ t)) = true) :
    w = [] ∨ "-cert".data.isPrefixOf w = true := by
  rcases w with _ | ⟨a, _ | ⟨b, _ | ⟨c, _ | ⟨d, _ | ⟨e, rest⟩⟩⟩⟩⟩
  · exact Or.inl rfl
  · simp [List.isPrefixOf] at h
  · simp [List.isPrefixOf] at h
  · simp [List.isPrefixOf] at h
  · simp [List.isPrefixOf] at h
  · right
    simp [List.isPrefixOf] at h ⊢
    tauto

theorem beforeCert_append {v t : List Char} (h : hasSub "-cert".data v = false) :
    beforeCert (v ++ ("-cert".data ++ t)) = v := by
  induction v with
  | nil =>
    simp [beforeCert, List.isPrefixOf]
  | cons c rest ih =>
    rw [hasSub, Bool.or_eq_false_iff] at h
    have hfalse : "-cert".data.isPrefixOf (c :: (rest ++ ("-cert".data ++ t))) = false := by
      by_contra hx
      rw [Bool.not_eq_false] at hx
      rcases cert_prefix_append (w := c :: rest) (t := t)
          (by rwa [List.cons_append]) with h0 | h0
      · exact absurd h0 (by simp)
      · rw [h0] at h
        exact absurd h.1 (by simp)
    have hcond : ¬ ("-cert".data.isPrefixOf (c :: (rest ++ ("-cert".data ++ t))) = true) := by
      rw [hfalse]
      exact Bool.false_ne_true
    rw [List.cons_append, beforeCert, if_neg hcond, ih h.2]

theorem parse_version_append_cert (v n : List Char) (p : PyVersion)
    (hp : parse_version v = some p) (hnc : hasSub "-cert".data v = false) :
    parse_version (v ++ ("-cert".data ++ n)) = some p := by
  unfold parse_version at hp ⊢
  by_cases hg : (v = "git".data ∨ "git-".data.isPrefixOf v = true)
  · rw [if_pos hg] at hp
    have hpre : "git-".data.isPrefixOf (v ++ ("-cert".data ++ n)) = true := by
      rcases hg with rfl | hgp
      · simp [List.isPrefixOf]
      · obtain ⟨t', rfl⟩ := isPrefixOf_exists hgp
        simp [List.isPrefixOf]
    rw [if_pos (Or.inr hpre)]
    exact hp
  · rw [if_neg hg] at hp
    rw [beforeCert_eq_self hnc] at hp
    have hd : ∃ c rest, v = c :: rest ∧ c.isDigit = true := by
      unfold matchVersion at hp
      by_cases h1 : v.takeWhile Char.isDigit = []
      · rw [if_pos h1] at hp
        exact absurd hp (by simp)
      · cases v with
        | nil => simp at h1
        | cons c rest =>
          refine ⟨c, rest, rfl, ?_⟩
          by_contra hcd
          rw [Bool.not_eq_true] at hcd
          exact h1 (by simp [List.takeWhile_cons, hcd])
    obtain ⟨c, rest, rfl, hcd⟩ := hd
    have hcg : c ≠ 'g' := by
      intro hc
      rw [hc] at hcd
      exact absurd hcd (by decide)
    have hg2 : ¬ ((c :: rest) ++ ("-cert".data ++ n) = "git".data ∨
        "git-".data.isPrefixOf ((c :: rest) ++ ("-cert".data ++ n)) = true) := by
      rintro (h | h)
      · rw [List.cons_append] at h
        simp only [List.cons.injEq] at h
        exact hcg h.1
      · rw [List.cons_append] at h
        simp only [List.isPrefixOf, Bool.and_eq_true, beq_iff_eq] at h
        exact hcg h.1.symm
    rw [if_neg hg2, beforeCert_append hnc]
    exact hp

/-- C7: For every valid version string `v` that does not contain a
certified marker, appending a certified-build suffix `-cert<N>` yields the
identical module selection (same enable set, same disable set, same
disabled categories): the certified marker never affects module
selection. -/
theorem cert_marker_irrelevant (v n : List Char) (f : Features) (p : PyVersion)
    (hp : parse_version v = some p) (hnc : hasSub "-cert".data v = false) :
    menu_config_of_string (v ++ ("-cert".data ++ n)) f = menu_config_of_string v f := by
  unfold menu_config_of_string
  rw [parse_version_append_cert v n p hp hnc, hp]

/-- C7 witness: `18.9.0-cert5` selects the same modules as `18.9.0`. -/
theorem cert_marker_irrelevant_witness :
    menu_config_of_string ("18.9.0".data ++ ("-cert".data ++ "5".data)) defaultFeatures =
      menu_config_of_string "18.9.0".data defaultFeatures :=
  cert_marker_irrelevant "18.9.0".data "5".data defaultFeatures ⟨18, 9, 0, none⟩
    (by decide) (by decide)

/-- C8: For every version and feature-flag mapping, the enable and disable
lists of the returned selection are duplicate-free and lexicographically
sorted, the disabled categories are the fixed catalog in order, and the
generated command list has exactly the fixed order: disable-BUILD_NATIVE,
enable-BETTER_BACKTRACES, one disable-category directive per category,
one enable directive per sorted enable module, one disable directive per
sorted disable module. -/
theorem menuselect_output_contract (s : List Char) (f : Features) (v : PyVersion)
    (hparse : parse_version s = some v) :
    (generate_config v.major v.minor f).enable.Nodup ∧
    List.Sorted strLe (generate_config v.major v.minor f).enable ∧
    (generate_config v.major v.minor f).disable.Nodup ∧
    List.Sorted strLe (generate_config v.major v.minor f).disable ∧
    (generate_config v.major v.minor f).disable_categories = DISABLE_CATEGORIES ∧
    generate_menuselect_commands (generate_config v.major v.minor f) =
      ["menuselect/menuselect --disable BUILD_NATIVE menuselect.makeopts",
       "menuselect/menuselect --enable BETTER_BACKTRACES menuselect.makeopts"]
      ++ (generate_config v.major v.minor f).disable_categories.map
          (fun category => "menuselect/menuselect --disable-category " ++ category ++ " menuselect.makeopts")
      ++ (generate_config v.major v.minor f).enable.map
          (fun m => "menuselect/menuselect --enable " ++ m ++ " menuselect.makeopts")
      ++ (generate_config v.major v.minor f).disable.map
          (fun m => "menuselect/menuselect --disable " ++ m ++ " menuselect.makeopts") := by
  have he : (generate_config v.major v.minor f).enable =
      sortedDedup (enable_raw v.major v.minor f) := by
    simp only [generate_config]
  have hd : (generate_config v.major v.minor f).disable = sortedDedup EXCLUDE_MODULES := by
    simp only [generate_config]
  refine ⟨?_, ?_, ?_, ?_, ?_, ?_⟩
  · rw [he]
    exact sortedDedup_nodup _
  · rw [he]
    exact sortedDedup_sorted _
  · rw [hd]
    exact sortedDedup_nodup _
  · rw [hd]
    exact sortedDedup_sorted _
  · simp only [generate_config]
  · simp only [generate_menuselect_commands]

/-- C8 witness: the enable list for `20.1.0` is duplicate-free. -/
theorem menuselect_output_contract_witness :
    (generate_config 20 1 defaultFeatures).enable.Nodup :=
  (menuselect_output_contract "20.1.0".data defaultFeatures ⟨20, 1, 0, none⟩ (by decide)).1

/-- C9: The add-on version resolution is the lookup table keyed by the
product version's `major.minor` prefix, mapping 1.2 to 1.2.9, 1.4 to
1.4.9 and 1.6 to 1.6.2.4; every other product version is returned
unchanged (fallback, not an error). -/
theorem addons_version_mapping (v : List Char) :
    (major_minor_key v = "1.2".data -> get_addons_version v = "1.2.9".data) ∧
    (major_minor_key v = "1.4".data -> get_addons_version v = "1.4.9".data) ∧
    (major_minor_key v = "1.6".data -> get_addons_version v = "1.6.2.4".data) ∧
    (major_minor_key v ≠ "1.2".data ∧ major_minor_key v ≠ "1.4".data ∧
      major_minor_key v ≠ "1.6".data -> get_addons_version v = v) := by
  unfold get_addons_version addons_mapping
  refine ⟨?_, ?_, ?_, ?_⟩ <;> intro h
  · rw [h]
    rfl
  · rw [h]
    rfl
  · rw [h]
    rfl
  · obtain ⟨h1, h2, h3⟩ := h
    have e1 : (major_minor_key v == "1.2".data) = false := beq_eq_false_iff_ne.mpr h1
    have e2 : (major_minor_key v == "1.4".data) = false := beq_eq_false_iff_ne.mpr h2
    have e3 : (major_minor_key v == "1.6".data) = false := beq_eq_false_iff_ne.mpr h3
    simp [List.lookup, e1, e2, e3]

/-- C9 witness: `1.2.40` maps to `1.2.9` and `11.25.3` falls through. -/
theorem addons_version_mapping_witness :
    get_addons_version "1.2.40".data = "1.2.9".data ∧
      get_addons_version "11.25.3".data = "11.25.3".data :=
  ⟨(addons_version_mapping "1.2.40".data).1 (by decide),
   (addons_version_mapping "11.25.3".data).2.2.2 (by decide)⟩

/-- C10: Distribution inference is total: versions starting with `1.`,
`10.`, `11.` or `12.` map to jessie; `13.`, `14.`, `15.` map to buster;
`16.`, `17.` map to bookworm; development-tip (`git...`) versions and
every other version string map to trixie. -/
theorem distribution_inference (s : List Char) :
    (("1.".data.isPrefixOf s = true ∨ "10.".data.isPrefixOf s = true ∨
      "11.".data.isPrefixOf s = true ∨ "12.".data.isPrefixOf s = true) ->
        determine_distribution s = "jessie".data) ∧
    (("13.".data.isPrefixOf s = true ∨ "14.".data.isPrefixOf s = true ∨
      "15.".data.isPrefixOf s = true) -> determine_distribution s = "buster".data) ∧
    (("16.".data.isPrefixOf s = true ∨ "17.".data.isPrefixOf s = true) ->
        determine_distribution s = "bookworm".data) ∧
    ("git".data.isPrefixOf s = true -> determine_distribution s = "trixie".data) ∧
    (("1.".data.isPrefixOf s = false ∧ "10.".data.isPrefixOf s = false ∧
      "11.".data.isPrefixOf s = false ∧ "12.".data.isPrefixOf s = false ∧
      "13.".data.isPrefixOf s = false ∧ "14.".data.isPrefixOf s = false ∧
      "15.".data.isPrefixOf s = false ∧ "16.".data.isPrefixOf s = false ∧
      "17.".data.isPrefixOf s = false) ->
        determine_distribution s = "trixie".data) := by
  refine ⟨?_, ?_, ?_, ?_, ?_⟩ <;> intro h
  · rcases h with h | h | h | h <;> obtain ⟨t, rfl⟩ := isPrefixOf_exists h <;>
      simp [determine_distribution, List.isPrefixOf]
  · rcases h with h | h | h <;> obtain ⟨t, rfl⟩ := isPrefixOf_exists h <;>
      simp [determine_distribution, List.isPrefixOf]
  · rcases h with h | h <;> obtain ⟨t, rfl⟩ := isPrefixOf_exists h <;>
      simp [determine_distribution, List.isPrefixOf]
  · obtain ⟨t, rfl⟩ := isPrefixOf_exists h
    simp [determine_distribution, List.isPrefixOf]
  · obtain ⟨h1, h2, h3, h4, h5, h6, h7, h8, h9⟩ := h
    simp [determine_distribution, h1, h2, h3, h4, h5, h6, h7, h8, h9]

/-- C10 witness: `13.2` maps to buster and `22.6.0` maps to trixie. -/
theorem distribution_inference_witness :
    determine_distribution "13.2".data = "buster".data ∧
      determine_distribution "22.6.0".data = "trixie".data :=
  ⟨(distribution_inference "13.2".data).2.1 (by decide),
   (distribution_inference "22.6.0".data).2.2.2.2 (by decide)⟩

end Asterisk

